import Mathlib

/-
Verification of the response-orchestration layer of the GovEx Academy
assistant (config.js, the unnamed config variant, and the JavaScript
snippets of CLAUDE_API_INTEGRATION_GUIDE.md), as a shallow embedding:
strings are Lean `String`, JavaScript `Map` insertion order is a list of
key/value pairs, timestamps are `Int` milliseconds, and the network call
is an explicit `FetchOutcome` oracle passed to the functions that await
`fetch`.
-/

namespace GovEx

/-! ## Generic string helpers (JavaScript `includes`, `trim`, `toLowerCase`) -/

/-- Character-list prefix test, written out to keep every step of the
JavaScript `String.prototype.includes` model elementary. -/
def leadsWith : List Char → List Char → Bool
  | [], _ => true
  | _ :: _, [] => false
  | a :: as, b :: bs => a == b && leadsWith as bs

/-- Does `pat` occur as a contiguous run inside `l`?  Model of JavaScript
`haystack.includes(pat)` on the underlying character sequences. -/
def hasSubList (pat : List Char) : List Char → Bool
  | [] => pat.isEmpty
  | c :: rest => leadsWith pat (c :: rest) || hasSubList pat rest

/-- JavaScript `s.includes(pat)`. -/
def jsIncludes (s pat : String) : Bool :=
  hasSubList pat.data s.data

/-- JavaScript `s.startsWith(pat)`. -/
def jsStartsWith (s pat : String) : Bool :=
  leadsWith pat.data s.data

/-- The whitespace characters removed by `trim` (ASCII subset; all inputs
considered here are ASCII). -/
def isWsChar (c : Char) : Bool :=
  c == ' ' || c == '\t' || c == '\n' || c == '\r'

/-- JavaScript `s.trim()` on the character list: drop whitespace from both
ends. -/
def trimChars (l : List Char) : List Char :=
  ((l.dropWhile isWsChar).reverse.dropWhile isWsChar).reverse

/-- JavaScript `s.toLowerCase()` (ASCII). -/
def lowerStr (s : String) : String :=
  String.mk (s.data.map Char.toLower)

/-! ## Configuration resolver (config.js and the unnamed variant)

`CONFIG.environment` is an IIFE over `window.location.hostname`; the
credential comes from `window.CLAUDE_API_KEY || process.env.CLAUDE_API_KEY
|| null`, where JavaScript `||` skips empty strings as falsy. -/

/-- `CONFIG.environment`: github.io / githubusercontent.com hosts are
production, localhost / 127.0.0.1 are development, anything else defaults
to production "for safety". -/
def configEnvironment (hostname : String) : String :=
  if jsIncludes hostname "github.io" || jsIncludes hostname "githubusercontent.com" then
    "production"
  else if hostname == "localhost" || hostname == "127.0.0.1" then
    "development"
  else
    "production"

/-- `CONFIG.claude.models[env]` (the object literal has exactly the two
keys; any other index is `undefined`, unreachable because
`configEnvironment` only returns these two strings). -/
def claudeModelFor (env : String) : Option String :=
  if env == "development" then some "claude-3-haiku-20240307"
  else if env == "production" then some "claude-3-sonnet-20240229"
  else none

/-- `CONFIG.claude.maxTokens[env]`. -/
def claudeMaxTokensFor (env : String) : Option Nat :=
  if env == "development" then some 500
  else if env == "production" then some 1000
  else none

/-- JavaScript truthiness of an optional string: `null` and `""` are
falsy. -/
def truthyStr : Option String → Bool
  | none => false
  | some s => !(s == "")

/-- `window.CLAUDE_API_KEY || process.env.CLAUDE_API_KEY || null`: first
truthy source wins, else `null`. -/
def pickKey (winKey envKey : Option String) : Option String :=
  if truthyStr winKey then winKey
  else if truthyStr envKey then envKey
  else none

/-- The unnamed config variant, lines 57-61: after building `CONFIG`, a
present key that does not start with `sk-ant-` is warned about and set to
`null`. -/
def part000ApiKey (winKey envKey : Option String) : Option String :=
  match pickKey winKey envKey with
  | none => none
  | some s => if !(jsStartsWith s "sk-ant-") then none else some s

/-- config.js lines 24-26: the `CONFIG.claude.apiKey` getter re-reads the
two sources on every access and applies no format validation. -/
def configJsApiKey (winKey envKey : Option String) : Option String :=
  pickKey winKey envKey

/-- config.js `validateAndLogConfig` (lines 59-81): returns `false` for a
present malformed key (after a console warning) and otherwise the
truthiness of the key; it never mutates the getter. -/
def validateAndLogConfig (winKey envKey : Option String) : Bool :=
  let apiKey := configJsApiKey winKey envKey
  if truthyStr apiKey && !(jsStartsWith (apiKey.getD "") "sk-ant-") then false
  else truthyStr apiKey

/-! ## Input sanitizer (guide, Security Considerations §2) -/

/-- `sanitizeInput`: `input.replace(/[<>]/g, '').trim().slice(0, 2000)` —
drop every `<` and `>`, trim whitespace from both ends, keep at most the
first 2000 characters. -/
def sanitizeInput (input : String) : String :=
  String.mk ((trimChars (input.data.filter fun c => !(c == '<') && !(c == '>'))).take 2000)

/-! ## Response validator (guide, Security Considerations §3) -/

/-- The fixed string `validateResponse` returns for over-length
responses. -/
def tooLongMsg : String :=
  "Response was too long. Please ask a more specific question."

/-- `validateResponse`: a response longer than 5000 characters is replaced
wholesale by `tooLongMsg`; otherwise it passes through unchanged. -/
def validateResponse (response : String) : String :=
  if response.length > 5000 then tooLongMsg else response

/-- A 5001-character upstream response, used to exercise the over-length
branch of `validateResponse`. -/
def longResp : String := String.mk (List.replicate 5001 'a')

/-! ## Fallback responder (guide, Step 3, `getFallbackResponse`)

The guide keeps the navigation branch and the default suggestions answer
verbatim and elides the remaining rule-based branches behind
`// [Include other existing response patterns here...]`. -/

/-- One assistant reply as produced by `getAIResponse` /
`getFallbackResponse`: message text, action list (always empty in the
shipped snippets), and source tag. -/
structure AiResponse where
  message : String
  actions : List String
  source : String
deriving DecidableEq

/-- The navigation-help canned answer (guide, Step 3). -/
def navMsg : String :=
  "I can help you navigate the dashboard! Here are the main areas:\n\n📊 **Left Sidebar**: Filter resources by programs, topics, authors, file types, and more\n📋 **Main Area**: Browse resource cards with download links\n📈 **Right Sidebar**: View quick stats and recent activity\n\nWhat would you like to explore?"

/-- The default suggestions answer (guide, Step 3). -/
def defaultMsg : String :=
  "I can help you search! Try asking me:\n\n🔍 \"Find resources about data quality\"\n📁 \"Show me Excel files\"\n🏢 \"What\x27s available from GovEx?\"\n👥 \"Resources by author name\"\n\nWhat are you looking for?"

/-- Modelled from the spec: the guide elides the middle branches of
`getFallbackResponse` (the resource-search answer); spec §4.7 lists the
ordered predicates navigation help, resource search, statistics, and
"how to add". -/
def searchMsg : String :=
  "I can look for resources for you. Tell me a topic, file type, or author and I will point you to matching resources."

/-- Modelled from the spec: the statistics canned answer elided from the
guide. -/
def statsMsg : String :=
  "Here are the platform statistics: check the right sidebar for resource counts and recent activity."

/-- Modelled from the spec: the "how to add" canned answer elided from the
guide. -/
def addMsg : String :=
  "Admin users can manage resources directly; regular users can request a new resource from the dashboard."

/-- `getFallbackResponse`: lower-case the message and walk the ordered
keyword branches, answering with the first match, else the default
suggestions answer.  The navigation branch and the default are verbatim
from the guide; the middle branches are modelled from spec §4.7 (the guide
elides them). -/
def getFallbackResponse (userMessage : String) : AiResponse :=
  let message := lowerStr userMessage
  if jsIncludes message "navigate" || jsIncludes message "how to use"
      || jsIncludes message "help" then
    ⟨navMsg, [], "fallback"⟩
  else if jsIncludes message "find" || jsIncludes message "search" then
    ⟨searchMsg, [], "fallback"⟩
  else if jsIncludes message "statistics" || jsIncludes message "how many" then
    ⟨statsMsg, [], "fallback"⟩
  else if jsIncludes message "how to add" then
    ⟨addMsg, [], "fallback"⟩
  else
    ⟨defaultMsg, [], "fallback"⟩

/-- The spec's rendering of the fallback responder (§4.7 and design note
3): an ordered table of {predicate, answer} pairs evaluated on the
lower-cased input, first match wins, with the generic suggestions answer
when none match. -/
def fallbackTable : List ((String → Bool) × String) :=
  [(fun m => jsIncludes m "navigate" || jsIncludes m "how to use"
      || jsIncludes m "help", navMsg),
   (fun m => jsIncludes m "find" || jsIncludes m "search", searchMsg),
   (fun m => jsIncludes m "statistics" || jsIncludes m "how many", statsMsg),
   (fun m => jsIncludes m "how to add", addMsg)]

/-- First-match lookup in the spec's fallback table. -/
def respondFromTable (userMessage : String) : String :=
  match fallbackTable.find? (fun e => e.1 (lowerStr userMessage)) with
  | some e => e.2
  | none => defaultMsg

/-! ## Rate limiter (guide, Step 7) -/

/-- `ClaudeAIService.rateLimitTracker`: requests made in the current
window, the window start (`lastReset`, ms), and the per-minute ceiling. -/
structure RateTracker where
  requests : Nat
  lastReset : Int
  maxRequests : Nat
deriving DecidableEq

/-- `checkRateLimit` (guide, Step 7): reset the window when more than one
minute has passed, throw when the ceiling is reached, otherwise count the
request.  The `Bool` is `false` exactly when the code throws its
rate-limit `Error`; the second component is the tracker after the call. -/
def checkRateLimit (t : RateTracker) (now : Int) : Bool × RateTracker :=
  let t1 := if now - t.lastReset > 60 * 1000 then
    { t with requests := 0, lastReset := now } else t
  if t1.requests ≥ t1.maxRequests then (false, t1)
  else (true, { t1 with requests := t1.requests + 1 })

/-! ## Response cache (guide, Cost Optimization §3) -/

/-- The `responseCache` JavaScript `Map`, as its insertion-ordered list of
key/value pairs (a `Map` holds at most one entry per key). -/
abbrev CacheMap := List (String × String)

/-- JavaScript `Map.prototype.set`: update in place when the key is
present (keeping its insertion position), otherwise append at the end. -/
def mapSet : CacheMap → String → String → CacheMap
  | [], k, v => [(k, v)]
  | (k0, v0) :: rest, k, v =>
    if k0 == k then (k0, v) :: rest else (k0, v0) :: mapSet rest k v

/-- JavaScript `Map.prototype.get` (`none` models `undefined`). -/
def mapGet : CacheMap → String → Option String
  | [], _ => none
  | (k0, v0) :: rest, k => if k0 == k then some v0 else mapGet rest k

/-- JavaScript `Map.prototype.delete`: remove the (unique) entry with the
given key, if any. -/
def mapDelete (m : CacheMap) (k : String) : CacheMap :=
  List.eraseP (fun p => p.1 == k) m

/-- JavaScript `s.trim()`. -/
def jsTrim (s : String) : String := String.mk (trimChars s.data)

/-- The cache key: `userMessage.toLowerCase().trim()` (used identically by
`getCachedResponse` and `setCachedResponse`). -/
def cacheKeyOf (userMessage : String) : String := jsTrim (lowerStr userMessage)

/-- `getCachedResponse`. -/
def getCachedResponse (userMessage : String) (cache : CacheMap) : Option String :=
  mapGet cache (cacheKeyOf userMessage)

/-- `setCachedResponse`: insert under the normalized key, then, when the
size exceeds 100, delete the first insertion-ordered key
(`responseCache.keys().next().value`). -/
def setCachedResponse (userMessage response : String) (cache : CacheMap) : CacheMap :=
  let m1 := mapSet cache (cacheKeyOf userMessage) response
  if m1.length > 100 then
    match m1 with
    | [] => m1
    | (k0, _) :: _ => mapDelete m1 k0
  else m1

/-! ## Upstream model client and orchestration (guide, Steps 2-4 and 7) -/

/-- The Claude configuration consumed by `sendMessage`
(`CLAUDE_API_CONFIG` / `CONFIG.claude`): the resolved credential and the
tier-selected model and token budget. -/
structure ClaudeConfig where
  apiKey : Option String
  model : String
  maxTokens : Nat
deriving DecidableEq

/-- The parsed JSON body of a Claude response: the text of each block of
`data.content` (the code reads `data.content[0].text`). -/
structure ClaudeBody where
  content : List String
deriving DecidableEq

/-- The outcome of the single `fetch` to the Claude endpoint as observed
by `sendMessage`: the promise rejects (transport failure), or an HTTP
response arrives with its `ok` flag, status, and parsed body (`none` when
`response.json()` fails). -/
inductive FetchOutcome where
  | netError (msg : String)
  | resp (ok : Bool) (status : Nat) (body : Option ClaudeBody)
deriving DecidableEq

/-- What `ClaudeAIService.sendMessage` resolves to: message text and the
`success` flag (the code's `fallback: true` field accompanies exactly
`success: false`). -/
structure SendResult where
  message : String
  success : Bool
deriving DecidableEq

/-- The canned connection-trouble message returned from `sendMessage`'s
catch block. -/
def connTroubleMsg : String :=
  "I\x27m having trouble connecting to my AI services right now. Let me try to help you with my basic knowledge instead."

/-- `ClaudeAIService.sendMessage` (guide, Step 2 body wrapped by the
Step 7 rate-limit check).  `checkRateLimit` throwing lands in the catch
before any request; otherwise one `fetch` is attempted — the request is
built and sent whether or not a credential is configured (`config` is
only read for header and body values, never branched on).  A non-ok
status, a transport failure, an unparseable body, and an empty `content`
array (making `data.content[0].text` throw) all land in the catch, which
resolves with the connection-trouble message and `success: false`.  The
`Bool` component records whether the network call was attempted. -/
def sendMessage (config : ClaudeConfig) (userMessage : String)
    (tracker : RateTracker) (now : Int) (fetch : FetchOutcome) :
    SendResult × RateTracker × Bool :=
  let (allowed, t1) := checkRateLimit tracker now
  if !allowed then (⟨connTroubleMsg, false⟩, t1, false)
  else
    match fetch with
    | .netError _ => (⟨connTroubleMsg, false⟩, t1, true)
    | .resp ok _ body =>
      if !ok then (⟨connTroubleMsg, false⟩, t1, true)
      else
        match body with
        | none => (⟨connTroubleMsg, false⟩, t1, true)
        | some b =>
          match b.content with
          | [] => (⟨connTroubleMsg, false⟩, t1, true)
          | t :: _ => (⟨t, true⟩, t1, true)

/-- `getAIResponse` (guide, Step 3, calling the Step 7 `sendMessage`):
try Claude first; on success tag the answer with source `claude`,
otherwise hand the raw user message to the rule-based fallback. -/
def getAIResponse (config : ClaudeConfig) (userMessage : String)
    (tracker : RateTracker) (now : Int) (fetch : FetchOutcome) :
    AiResponse × RateTracker × Bool :=
  let (claudeResponse, t1, attempted) := sendMessage config userMessage tracker now fetch
  if claudeResponse.success then
    (⟨claudeResponse.message, [], "claude"⟩, t1, attempted)
  else
    (getFallbackResponse userMessage, t1, attempted)

/-- One bot chat entry appended by `handleSendMessage` (the `id` and
`timestamp` clock fields are omitted). -/
structure BotMessage where
  msgType : String
  message : String
  source : String
deriving DecidableEq

/-- `handleSendMessage` (guide, Step 4): an input whose trim is falsy
(empty) returns at once, appending no bot message; otherwise the resolved
`getAIResponse` is appended as exactly one bot message.  The catch branch
that would append the `source = error` apology is unreachable in this
embedding because the embedded `getAIResponse` is total.  The list holds
the bot entries delivered to the UI (the user's own echoed entry is not an
AssistantResult and is not modelled); the `Bool` records whether a network
call was attempted. -/
def handleSendMessage (config : ClaudeConfig) (inputMessage : String)
    (tracker : RateTracker) (now : Int) (fetch : FetchOutcome) :
    List BotMessage × RateTracker × Bool :=
  if jsTrim inputMessage == "" then ([], tracker, false)
  else
    let (aiResponse, t1, attempted) := getAIResponse config inputMessage tracker now fetch
    ([⟨"bot", aiResponse.message, aiResponse.source⟩], t1, attempted)

/-- Does the fetch outcome carry a usable answer (ok response, parseable
body, non-empty `content` array)? -/
def fetchSucceeds : FetchOutcome → Bool
  | .resp true _ (some b) => !b.content.isEmpty
  | _ => false

/-- When the fetch outcome succeeds, is its answer text non-empty?
(Trivially `true` for every failing outcome.) -/
def answerNonempty : FetchOutcome → Bool
  | .resp true _ (some b) =>
    match b.content with
    | [] => true
    | t :: _ => !(t == "")
  | _ => true

/-! ## Spec-modelled orchestrator (spec §4.8) -/

/-- The orchestration steps §4.8 names, recorded in visit order. -/
inductive OrchEvent where
  | evSanitize
  | evCacheCheck
  | evRateCheck
  | evInvoke
deriving DecidableEq

/-- The session-local mutable state the orchestrator owns: the response
cache and the rate window. -/
structure OrchState where
  cache : CacheMap
  tracker : RateTracker
deriving DecidableEq

/-- Modelled from the spec: the guide never wires `getCachedResponse` /
`setCachedResponse` into `getAIResponse` (caching is an "Optional
Enhancement" whose integrated call site is not among the sources), so the
sequencing Sanitizing → CacheCheck → RateCheck → Invoking → Done of spec
§4.8 is modelled here over the repository's own components: a cache hit is
Done(source model) straight away; a miss consults the rate limiter; a
denial or an absent credential routes to the fallback responder without
invoking upstream; an upstream success is cached. -/
def orchestrate (config : ClaudeConfig) (raw : String) (now : Int)
    (fetch : FetchOutcome) (st : OrchState) :
    AiResponse × OrchState × List OrchEvent :=
  let clean := sanitizeInput raw
  match getCachedResponse clean st.cache with
  | some answer =>
    (⟨answer, [], "claude"⟩, st, [.evSanitize, .evCacheCheck])
  | none =>
    let (allowed, t1) := checkRateLimit st.tracker now
    if !allowed then
      (getFallbackResponse clean, ⟨st.cache, t1⟩,
        [.evSanitize, .evCacheCheck, .evRateCheck])
    else
      match config.apiKey with
      | none =>
        (getFallbackResponse clean, ⟨st.cache, t1⟩,
          [.evSanitize, .evCacheCheck, .evRateCheck])
      | some _ =>
        match fetch with
        | .resp true _ (some b) =>
          match b.content with
          | t :: _ =>
            (⟨t, [], "claude"⟩, ⟨setCachedResponse clean t st.cache, t1⟩,
              [.evSanitize, .evCacheCheck, .evRateCheck, .evInvoke])
          | [] =>
            (getFallbackResponse clean, ⟨st.cache, t1⟩,
              [.evSanitize, .evCacheCheck, .evRateCheck, .evInvoke])
        | _ =>
          (getFallbackResponse clean, ⟨st.cache, t1⟩,
            [.evSanitize, .evCacheCheck, .evRateCheck, .evInvoke])

/-! ## General lemmas -/

/-- Length of a string built from a character list. -/
theorem length_mk_str (l : List Char) : (String.mk l).length = l.length := rfl

/-- Length of an appended string is the sum of the lengths. -/
theorem length_append_str (a b : String) :
    (String.append a b).length = a.length + b.length := by
  cases a with
  | mk la =>
    cases b with
    | mk lb =>
      show (String.mk (la ++ lb)).length = _
      simp [String.length]

/-- Membership survives `trimChars`: trimming only drops characters. -/
theorem mem_of_mem_trimChars {c : Char} {l : List Char} (h : c ∈ trimChars l) : c ∈ l := by
  unfold trimChars at h
  have h1 := List.mem_reverse.mp h
  have h2 := (List.dropWhile_sublist (p := isWsChar)
    (l := (List.dropWhile isWsChar l).reverse)).mem h1
  have h3 := List.mem_reverse.mp h2
  exact (List.dropWhile_sublist _).mem h3

/-- The sanitizer output is at most 2000 characters. -/
theorem sanitizeInput_length_le (s : String) : (sanitizeInput s).length ≤ 2000 := by
  show (String.mk _).length ≤ 2000
  rw [length_mk_str]
  exact List.length_take_le 2000
    (trimChars (s.data.filter fun c => !(c == '<') && !(c == '>')))

/-- Neither angle bracket survives the sanitizer. -/
theorem sanitizeInput_no_angle (s : String) (c : Char) (hc : c = '<' ∨ c = '>') :
    c ∉ (sanitizeInput s).data := by
  intro hmem
  have h1 : c ∈ trimChars (s.data.filter fun c => !(c == '<') && !(c == '>')) :=
    List.mem_of_mem_take hmem
  have h2 := mem_of_mem_trimChars h1
  have h3 := List.of_mem_filter h2
  rcases hc with h | h <;> subst h <;> simp at h3

/-- `dropWhile isWsChar` keeps a replicate of `'a'` intact. -/
theorem dropWhile_ws_replicate_a (n : Nat) :
    List.dropWhile isWsChar (List.replicate n 'a') = List.replicate n 'a' := by
  cases n with
  | zero => rfl
  | succ m => rw [List.replicate, List.dropWhile_cons]; rfl

/-- `trimChars` keeps a replicate of `'a'` intact. -/
theorem trimChars_replicate_a (n : Nat) :
    trimChars (List.replicate n 'a') = List.replicate n 'a' := by
  unfold trimChars
  rw [dropWhile_ws_replicate_a, List.reverse_replicate, dropWhile_ws_replicate_a,
    List.reverse_replicate]

/-- Sanitizing `n` copies of `'a'` keeps `min 2000 n` of them. -/
theorem sanitizeInput_replicate_a (n : Nat) :
    (sanitizeInput (String.mk (List.replicate n 'a'))).length = min 2000 n := by
  have h1 : (List.replicate n 'a').filter (fun c => !(c == '<') && !(c == '>'))
      = List.replicate n 'a' := by
    rw [List.filter_replicate]; rfl
  have h2 : sanitizeInput (String.mk (List.replicate n 'a'))
      = String.mk ((trimChars ((List.replicate n 'a').filter
          (fun c => !(c == '<') && !(c == '>')))).take 2000) := rfl
  rw [h2, h1, trimChars_replicate_a, List.take_replicate, length_mk_str,
    List.length_replicate]

/-- Inserting a key absent from the map appends the entry at the end. -/
theorem mapSet_fresh (m : CacheMap) (k v : String) (h : k ∉ m.map Prod.fst) :
    mapSet m k v = m ++ [(k, v)] := by
  induction m with
  | nil => rfl
  | cons p rest ih =>
    obtain ⟨k0, v0⟩ := p
    simp only [List.map_cons, List.mem_cons] at h
    push_neg at h
    obtain ⟨h1, h2⟩ := h
    have hbeq : (k0 == k) = false := by
      simp only [beq_eq_false_iff_ne]
      exact fun he => h1 he.symm
    simp [mapSet, hbeq, ih h2]

/-- Looking up a key absent from the map yields `undefined`. -/
theorem mapGet_none (m : CacheMap) (k : String) (h : k ∉ m.map Prod.fst) :
    mapGet m k = none := by
  induction m with
  | nil => rfl
  | cons p rest ih =>
    obtain ⟨k0, v0⟩ := p
    simp only [List.map_cons, List.mem_cons] at h
    push_neg at h
    obtain ⟨h1, h2⟩ := h
    have hbeq : (k0 == k) = false := by
      simp only [beq_eq_false_iff_ne]
      exact fun he => h1 he.symm
    simp [mapGet, hbeq, ih h2]

/-- An insertion grows the map by at most one entry. -/
theorem mapSet_length_le (m : CacheMap) (k v : String) :
    (mapSet m k v).length ≤ m.length + 1 := by
  induction m with
  | nil => simp [mapSet]
  | cons p rest ih =>
    obtain ⟨k0, v0⟩ := p
    unfold mapSet
    split
    · simp
    · simp only [List.length_cons]
      omega

/-- While the cache stays within capacity, inserting pairwise-fresh keys
just appends the corresponding entries, in order. -/
theorem foldl_set_fresh (resp : String → String) :
    ∀ (ks : List String) (m : CacheMap),
      (m.map Prod.fst ++ ks.map cacheKeyOf).Nodup →
      m.length + ks.length ≤ 100 →
      ks.foldl (fun acc k => setCachedResponse k (resp k) acc) m
        = m ++ ks.map (fun k => (cacheKeyOf k, resp k)) := by
  intro ks
  induction ks with
  | nil => intro m _ _; simp
  | cons k rest ih =>
    intro m hnodup hlen
    have hparts := List.nodup_append.mp hnodup
    have hfresh : cacheKeyOf k ∉ m.map Prod.fst := by
      intro hmem
      exact hparts.2.2 hmem (by simp)
    have hset : setCachedResponse k (resp k) m = m ++ [(cacheKeyOf k, resp k)] := by
      unfold setCachedResponse
      rw [mapSet_fresh m _ _ hfresh]
      rw [if_neg ?_]
      simp only [List.length_append, List.length_cons, List.length_nil]
      simp only [List.length_cons, List.length_map] at hlen
      omega
    rw [List.foldl_cons, hset, ih (m ++ [(cacheKeyOf k, resp k)]) ?_ ?_]
    · simp
    · simp only [List.map_append, List.map_cons, List.map_nil]
      have : m.map Prod.fst ++ [cacheKeyOf k] ++ rest.map cacheKeyOf
          = m.map Prod.fst ++ (cacheKeyOf k :: rest.map cacheKeyOf) := by simp
      rw [this]
      exact hnodup
    · simp only [List.length_append, List.length_cons, List.length_nil]
      simp only [List.length_cons] at hlen
      omega

/-- Inserting a fresh key into a full (100-entry) cache appends it and then
evicts the head entry. -/
theorem setCachedResponse_evict (p : String × String) (tail : CacheMap) (k v : String)
    (hfresh : cacheKeyOf k ∉ ((p :: tail).map Prod.fst))
    (hlen : (p :: tail).length = 100) :
    setCachedResponse k v (p :: tail) = tail ++ [(cacheKeyOf k, v)] := by
  obtain ⟨pk, pv⟩ := p
  unfold setCachedResponse
  rw [mapSet_fresh _ _ _ hfresh]
  rw [if_pos (by
    simp only [List.length_append, List.length_cons, List.length_nil] at hlen ⊢
    omega)]
  show mapDelete ((pk, pv) :: (tail ++ [(cacheKeyOf k, v)])) pk = tail ++ [(cacheKeyOf k, v)]
  unfold mapDelete
  rw [List.eraseP_cons_of_pos]
  simp

/-- Filling an empty cache with 101 pairwise-distinct (normalized) keys
leaves exactly the entries of the last 100 keys, in insertion order. -/
theorem cache_evicts_first (k0 : String) (rest : List String) (resp : String → String)
    (hlen : rest.length = 100)
    (hnodup : ((k0 :: rest).map cacheKeyOf).Nodup) :
    (k0 :: rest).foldl (fun acc k => setCachedResponse k (resp k) acc) []
      = rest.map (fun k => (cacheKeyOf k, resp k)) := by
  have hne : rest ≠ [] := by intro h; rw [h] at hlen; simp at hlen
  obtain ⟨front, klast, hsplit⟩ : ∃ front klast, rest = front ++ [klast] :=
    ⟨rest.dropLast, rest.getLast hne, (List.dropLast_append_getLast hne).symm⟩
  subst hsplit
  have hfrontlen : front.length = 99 := by
    simp only [List.length_append, List.length_cons, List.length_nil] at hlen; omega
  have hnodup' : ((k0 :: front).map cacheKeyOf ++ [cacheKeyOf klast]).Nodup := by
    simpa using hnodup
  have hparts := List.nodup_append.mp hnodup'
  rw [show k0 :: (front ++ [klast]) = (k0 :: front) ++ [klast] from rfl]
  rw [List.foldl_append]
  have hmid := foldl_set_fresh resp (k0 :: front) [] (by simpa using hparts.1)
    (by simp only [List.length_cons, List.length_nil]; omega)
  rw [hmid]
  simp only [List.nil_append, List.foldl_cons, List.foldl_nil]
  have hfresh2 : cacheKeyOf klast
      ∉ (((cacheKeyOf k0, resp k0) :: front.map (fun k => (cacheKeyOf k, resp k))).map Prod.fst) := by
    have hk : ((cacheKeyOf k0, resp k0) :: front.map (fun k => (cacheKeyOf k, resp k))).map Prod.fst
        = (k0 :: front).map cacheKeyOf := by
      simp [List.map_map]
    rw [hk]
    intro hmem
    exact hparts.2.2 hmem (by simp)
  have hlen2 : ((cacheKeyOf k0, resp k0) :: front.map (fun k => (cacheKeyOf k, resp k))).length = 100 := by
    simp only [List.length_cons, List.length_map]
    omega
  rw [show (k0 :: front).map (fun k => (cacheKeyOf k, resp k))
      = (cacheKeyOf k0, resp k0) :: front.map (fun k => (cacheKeyOf k, resp k)) from rfl]
  rw [setCachedResponse_evict _ _ klast (resp klast) hfresh2 hlen2]
  simp

/-- `getFallbackResponse` returns one of the five canned replies. -/
theorem getFallbackResponse_cases (s : String) :
    getFallbackResponse s = ⟨navMsg, [], "fallback"⟩
    ∨ getFallbackResponse s = ⟨searchMsg, [], "fallback"⟩
    ∨ getFallbackResponse s = ⟨statsMsg, [], "fallback"⟩
    ∨ getFallbackResponse s = ⟨addMsg, [], "fallback"⟩
    ∨ getFallbackResponse s = ⟨defaultMsg, [], "fallback"⟩ := by
  simp only [getFallbackResponse]
  split
  · exact Or.inl rfl
  · split
    · exact Or.inr (Or.inl rfl)
    · split
      · exact Or.inr (Or.inr (Or.inl rfl))
      · split
        · exact Or.inr (Or.inr (Or.inr (Or.inl rfl)))
        · exact Or.inr (Or.inr (Or.inr (Or.inr rfl)))

/-- The fallback responder always tags `fallback` and never returns empty
text. -/
theorem getFallbackResponse_total (s : String) :
    (getFallbackResponse s).message ≠ ""
    ∧ (getFallbackResponse s).source = "fallback" := by
  rcases getFallbackResponse_cases s with h | h | h | h | h <;> rw [h] <;>
    exact ⟨by decide, rfl⟩

/-- The network-attempted flag of `sendMessage` equals the rate limiter's
verdict: whenever the limiter permits, the fetch is attempted — there is
no credential-based (or any other) guard in between. -/
theorem sendMessage_attempted (config : ClaudeConfig) (userMessage : String)
    (tracker : RateTracker) (now : Int) (fetch : FetchOutcome) :
    (sendMessage config userMessage tracker now fetch).2.2
      = (checkRateLimit tracker now).1 := by
  unfold sendMessage
  cases hcrl : checkRateLimit tracker now with
  | mk allowed t1 =>
    cases allowed
    · rfl
    · cases fetch with
      | netError m => rfl
      | resp ok status body =>
        cases ok
        · rfl
        · cases body with
          | none => rfl
          | some b =>
            cases b with
            | mk content =>
              cases content with
              | nil => rfl
              | cons t rest => rfl

/-- Case analysis for `getAIResponse`: the reply is either a fallback
reply, or — exactly when the fetch outcome carries a usable answer — the
head text of the upstream `content` array tagged `claude`. -/
theorem getAIResponse_cases (config : ClaudeConfig) (userMessage : String)
    (tracker : RateTracker) (now : Int) (fetch : FetchOutcome) :
    (getAIResponse config userMessage tracker now fetch).1
        = getFallbackResponse userMessage
    ∨ (∃ (status : Nat) (t : String) (rest : List String),
        fetch = .resp true status (some ⟨t :: rest⟩)
        ∧ (getAIResponse config userMessage tracker now fetch).1
            = ⟨t, [], "claude"⟩) := by
  unfold getAIResponse sendMessage
  cases hcrl : checkRateLimit tracker now with
  | mk allowed t1 =>
    cases allowed
    · simp
    · cases fetch with
      | netError m => simp
      | resp ok status body =>
        cases ok
        · simp
        · cases body with
          | none => simp
          | some b =>
            cases b with
            | mk content =>
              cases content with
              | nil => simp
              | cons t rest => exact Or.inr ⟨status, t, rest, rfl, rfl⟩

/-- The attempted flag survives `getAIResponse`. -/
theorem getAIResponse_attempted (config : ClaudeConfig) (userMessage : String)
    (tracker : RateTracker) (now : Int) (fetch : FetchOutcome) :
    (getAIResponse config userMessage tracker now fetch).2.2
      = (checkRateLimit tracker now).1 := by
  have hsend := sendMessage_attempted config userMessage tracker now fetch
  unfold getAIResponse
  cases hsm : sendMessage config userMessage tracker now fetch with
  | mk sr rest =>
    cases rest with
    | mk t1 att =>
      rw [hsm] at hsend
      cases hsr : sr.success <;> simp [hsr] <;> exact hsend

/-- On a non-empty input, `handleSendMessage` appends exactly the one bot
entry built from `getAIResponse` and passes its state through. -/
theorem handleSendMessage_nonempty (config : ClaudeConfig) (input : String)
    (tracker : RateTracker) (now : Int) (fetch : FetchOutcome)
    (h : (jsTrim input == "") = false) :
    handleSendMessage config input tracker now fetch
      = ([⟨"bot", (getAIResponse config input tracker now fetch).1.message,
            (getAIResponse config input tracker now fetch).1.source⟩],
         (getAIResponse config input tracker now fetch).2.1,
         (getAIResponse config input tracker now fetch).2.2) := by
  unfold handleSendMessage
  rw [if_neg (by simp [h])]

/-! ## Claim theorems -/

/-- C5 (counterexample): the claimed scenario
`sanitize(" <script>hi</script> ") == "scripthi"` is false on the code:
`replace(/[<>]/g, '')` drops only the angle brackets, so the `/` of the
closing tag survives and the result is `"scripthi/script"`. -/
theorem C5_counterexample : sanitizeInput " <script>hi</script> " ≠ "scripthi" := by
  decide

/-- C5 (amended): `sanitizeInput` strips every `<` and `>`, trims
surrounding whitespace, and truncates to at most 2000 characters;
`sanitize(" <script>hi</script> ")` equals `"scripthi/script"` (the slash
of the closing tag survives), and the length-2500 all-`'a'` input
sanitizes to exactly 2000 characters (an arbitrary length-2500 input need
not: stripped or trimmed characters do not count toward the 2000). -/
theorem C5_sanitizer_behaviour :
    (∀ s : String, (sanitizeInput s).length ≤ 2000
      ∧ '<' ∉ (sanitizeInput s).data ∧ '>' ∉ (sanitizeInput s).data)
    ∧ sanitizeInput " <script>hi</script> " = "scripthi/script"
    ∧ (sanitizeInput (String.mk (List.replicate 2500 'a'))).length = 2000 := by
  refine ⟨fun s => ⟨sanitizeInput_length_le s, sanitizeInput_no_angle s _ (Or.inl rfl),
    sanitizeInput_no_angle s _ (Or.inr rfl)⟩, by decide, ?_⟩
  rw [sanitizeInput_replicate_a]
  omega

/-- `longResp` is 5001 characters long. -/
theorem longResp_length : longResp.length = 5001 := by
  show (List.replicate 5001 'a').length = 5001
  rw [List.length_replicate]

/-- C7 (counterexample): the claim says an over-length response comes back
as the text truncated with a trailing notice appended; the code instead
discards the text wholesale, so for the 5001-`'a'` response there is no
notice for which the output is the 5000-character truncation followed by
that notice. -/
theorem C7_counterexample :
    ¬ ∃ notice : String,
      validateResponse longResp
        = String.append (String.mk (longResp.data.take 5000)) notice := by
  rintro ⟨notice, h⟩
  have hv : validateResponse longResp = tooLongMsg := by
    unfold validateResponse
    rw [if_pos (by rw [longResp_length]; omega)]
  rw [hv] at h
  have hlen := congrArg String.length h
  rw [length_append_str] at hlen
  have htake : (String.mk (longResp.data.take 5000)).length = 5000 := by
    rw [length_mk_str]
    show ((List.replicate 5001 'a').take 5000).length = 5000
    rw [List.take_replicate, List.length_replicate]
    omega
  rw [htake] at hlen
  have hmsg : tooLongMsg.length ≤ 100 := by decide
  omega

/-- C7 (amended): a response longer than 5000 characters is replaced
wholesale by the fixed too-long notice (the original text is discarded,
not truncated-and-annotated); a response of at most 5000 characters passes
through unchanged. -/
theorem C7_overlength_replaced :
    ∀ r : String, (r.length > 5000 → validateResponse r = tooLongMsg)
      ∧ (r.length ≤ 5000 → validateResponse r = r) := by
  intro r
  constructor
  · intro h
    unfold validateResponse
    rw [if_pos h]
  · intro h
    unfold validateResponse
    rw [if_neg (by omega)]

/-- C7 (witness): the amended statement at two concrete responses. -/
theorem C7_overlength_replaced_witness :
    validateResponse longResp = tooLongMsg ∧ validateResponse "hi" = "hi" :=
  ⟨(C7_overlength_replaced longResp).1 (by rw [longResp_length]; omega),
   (C7_overlength_replaced "hi").2 (by decide)⟩

/-- C8 (counterexample): in config.js the `CONFIG.claude.apiKey` getter
applies no format validation, so a present credential that does not start
with `sk-ant-` does NOT resolve to `null`: the getter keeps returning the
malformed value (only part_000's variant nulls it). -/
theorem C8_counterexample :
    truthyStr (some "bad-key") = true
    ∧ jsStartsWith "bad-key" "sk-ant-" = false
    ∧ configJsApiKey (some "bad-key") none = some "bad-key" := by
  decide

/-- C8 (amended): a present credential that does not start with `sk-ant-`
never raises a fatal error; the part_000 config variant sets it to `null`
(treating it exactly as absent), while config.js only flags it —
`validateAndLogConfig` returns `false`, exactly as for a missing key — but
its `apiKey` getter keeps returning the malformed value. -/
theorem C8_malformed_credential :
    ∀ (s : String) (e : Option String),
      truthyStr (some s) = true →
      jsStartsWith s "sk-ant-" = false →
      part000ApiKey (some s) e = none
      ∧ validateAndLogConfig (some s) e = false
      ∧ configJsApiKey (some s) e = some s := by
  intro s e hs hpre
  have hpick : pickKey (some s) e = some s := by
    unfold pickKey
    rw [hs]
    simp
  refine ⟨?_, ?_, ?_⟩
  · unfold part000ApiKey
    rw [hpick]
    simp [hpre]
  · unfold validateAndLogConfig configJsApiKey
    rw [hpick]
    simp [hs, hpre]
  · unfold configJsApiKey
    exact hpick

/-- C8 (witness): the amended statement at the concrete malformed
credential `"bad-key"` with no environment fallback. -/
theorem C8_malformed_credential_witness :
    part000ApiKey (some "bad-key") none = none
    ∧ validateAndLogConfig (some "bad-key") none = false
    ∧ configJsApiKey (some "bad-key") none = some "bad-key" :=
  C8_malformed_credential "bad-key" none (by decide) (by decide)

/-- C10: a hostname that contains neither `github.io` nor
`githubusercontent.com` and is neither `localhost` nor `127.0.0.1` falls
through to the final `return 'production'`, and the production tier
selects the production model and the production token budget. -/
theorem C10_unknown_host_production :
    ∀ h : String,
      jsIncludes h "github.io" = false →
      jsIncludes h "githubusercontent.com" = false →
      (h == "localhost") = false →
      (h == "127.0.0.1") = false →
      configEnvironment h = "production"
      ∧ claudeModelFor (configEnvironment h) = some "claude-3-sonnet-20240229"
      ∧ claudeMaxTokensFor (configEnvironment h) = some 1000 := by
  intro h h1 h2 h3 h4
  have henv : configEnvironment h = "production" := by
    unfold configEnvironment
    rw [h1, h2, h3, h4]
    rfl
  refine ⟨henv, ?_, ?_⟩ <;> rw [henv] <;> rfl

/-- C10 (witness): the concrete unknown host `example.com` resolves to the
production tier. -/
theorem C10_unknown_host_production_witness :
    configEnvironment "example.com" = "production"
    ∧ claudeModelFor (configEnvironment "example.com")
        = some "claude-3-sonnet-20240229"
    ∧ claudeMaxTokensFor (configEnvironment "example.com") = some 1000 :=
  C10_unknown_host_production "example.com" (by decide) (by decide) (by decide) (by decide)

/-- C3: `checkRateLimit` is a fixed-window limiter: a call more than
60000ms after the window start resets the count and the window start (and
is permitted when the ceiling is positive); within the window a call at
the ceiling is denied without any state change; below the ceiling the
count is incremented and the call permitted.  With a ceiling of 3 and
window start 0, four calls inside the window yield permitted, permitted,
permitted, denied, and a call at 60001ms is permitted again. -/
theorem C3_rate_limiter_fixed_window :
    (∀ (t : RateTracker) (now : Int), 60 * 1000 < now - t.lastReset →
      0 < t.maxRequests →
      checkRateLimit t now = (true, ⟨1, now, t.maxRequests⟩))
    ∧ (∀ (t : RateTracker) (now : Int), ¬(60 * 1000 < now - t.lastReset) →
      t.maxRequests ≤ t.requests →
      checkRateLimit t now = (false, t))
    ∧ (∀ (t : RateTracker) (now : Int), ¬(60 * 1000 < now - t.lastReset) →
      t.requests < t.maxRequests →
      checkRateLimit t now = (true, ⟨t.requests + 1, t.lastReset, t.maxRequests⟩))
    ∧ (checkRateLimit ⟨0, 0, 3⟩ 0 = (true, ⟨1, 0, 3⟩)
      ∧ checkRateLimit ⟨1, 0, 3⟩ 1 = (true, ⟨2, 0, 3⟩)
      ∧ checkRateLimit ⟨2, 0, 3⟩ 2 = (true, ⟨3, 0, 3⟩)
      ∧ checkRateLimit ⟨3, 0, 3⟩ 3 = (false, ⟨3, 0, 3⟩)
      ∧ checkRateLimit ⟨3, 0, 3⟩ 60001 = (true, ⟨1, 60001, 3⟩)) := by
  refine ⟨?_, ?_, ?_, by decide, by decide, by decide, by decide, by decide⟩
  · intro t now hwin hpos
    unfold checkRateLimit
    rw [if_pos hwin, if_neg (by simpa using hpos.ne')]
  · intro t now hwin hceil
    unfold checkRateLimit
    rw [if_neg hwin, if_pos hceil]
  · intro t now hwin hbelow
    unfold checkRateLimit
    rw [if_neg hwin, if_neg (by simpa using hbelow)]

/-- C3 (witness): the window-reset, deny, and increment branches at
concrete trackers and times. -/
theorem C3_rate_limiter_fixed_window_witness :
    checkRateLimit ⟨5, 0, 3⟩ 70000 = (true, ⟨1, 70000, 3⟩)
    ∧ checkRateLimit ⟨3, 0, 3⟩ 100 = (false, ⟨3, 0, 3⟩)
    ∧ checkRateLimit ⟨1, 0, 3⟩ 50 = (true, ⟨2, 0, 3⟩) :=
  ⟨C3_rate_limiter_fixed_window.1 ⟨5, 0, 3⟩ 70000 (by decide) (by decide),
   C3_rate_limiter_fixed_window.2.1 ⟨3, 0, 3⟩ 100 (by decide) (by decide),
   C3_rate_limiter_fixed_window.2.2.1 ⟨1, 0, 3⟩ 50 (by decide) (by decide)⟩

/-- C4: a `setCachedResponse` on a cache within the 100-entry capacity
stays within capacity; and filling an empty cache with 101 distinct
(normalized) keys leaves exactly the last 100 entries — precisely the
first-inserted key was evicted and no other — and a `getCachedResponse`
on the evicted key returns `undefined`. -/
theorem C4_cache_capacity_fifo :
    (∀ (cache : CacheMap) (userMessage response : String), cache.length ≤ 100 →
      (setCachedResponse userMessage response cache).length ≤ 100)
    ∧ (∀ (k0 : String) (rest : List String) (resp : String → String),
      rest.length = 100 → ((k0 :: rest).map cacheKeyOf).Nodup →
      (k0 :: rest).foldl (fun acc k => setCachedResponse k (resp k) acc) []
        = rest.map (fun k => (cacheKeyOf k, resp k))
      ∧ getCachedResponse k0 ((k0 :: rest).foldl
          (fun acc k => setCachedResponse k (resp k) acc) []) = none) := by
  constructor
  · intro cache userMessage response h
    have hm := mapSet_length_le cache (cacheKeyOf userMessage) response
    simp only [setCachedResponse]
    split
    case isTrue hgt =>
      split
      · rename_i heq
        rw [heq]
        simp
      · rename_i k0 v0 tail heq
        unfold mapDelete
        rw [heq, List.eraseP_cons_of_pos (by simp)]
        have hlen3 := congrArg List.length heq
        simp only [List.length_cons] at hlen3
        omega
    case isFalse hgt => omega
  · intro k0 rest resp hlen hnodup
    have hfold := cache_evicts_first k0 rest resp hlen hnodup
    refine ⟨hfold, ?_⟩
    rw [hfold]
    unfold getCachedResponse
    apply mapGet_none
    have hk : (rest.map (fun k => (cacheKeyOf k, resp k))).map Prod.fst
        = rest.map cacheKeyOf := by
      simp [List.map_map]
    rw [hk]
    simp only [List.map_cons, List.nodup_cons] at hnodup
    exact hnodup.1

/-- C4 (witness): the capacity bound on a small cache, and the 101-key
eviction scenario at the concrete keys q0, q1, ..., q100. -/
theorem C4_cache_capacity_fifo_witness :
    (setCachedResponse "Hello" "answer" []).length ≤ 100
    ∧ ((("q0" :: (List.range 100).map (fun i => "q" ++ Nat.repr (i + 1))).foldl
        (fun acc k => setCachedResponse k ("v" ++ k) acc) []
          = ((List.range 100).map (fun i => "q" ++ Nat.repr (i + 1))).map
              (fun k => (cacheKeyOf k, "v" ++ k)))
      ∧ getCachedResponse "q0"
          (("q0" :: (List.range 100).map (fun i => "q" ++ Nat.repr (i + 1))).foldl
            (fun acc k => setCachedResponse k ("v" ++ k) acc) []) = none) :=
  ⟨C4_cache_capacity_fifo.1 [] "Hello" "answer" (by decide),
   C4_cache_capacity_fifo.2 "q0" ((List.range 100).map (fun i => "q" ++ Nat.repr (i + 1)))
     (fun k => "v" ++ k) (by simp) (by decide)⟩

/-- C9: the fallback responder is total — for every input string,
including the empty string, it returns a reply whose message is non-empty
and whose source is the fallback tag — and it refines the spec's ordered
{predicate, answer} table: the reply is the first matching entry's answer,
or the generic suggestions answer when no predicate matches. -/
theorem C9_fallback_total_first_match :
    ∀ s : String,
      getFallbackResponse s = ⟨respondFromTable s, [], "fallback"⟩
      ∧ (getFallbackResponse s).message ≠ "" := by
  intro s
  have hmain : getFallbackResponse s = ⟨respondFromTable s, [], "fallback"⟩ := by
    simp only [getFallbackResponse, respondFromTable, fallbackTable, List.find?]
    by_cases h1 : (jsIncludes (lowerStr s) "navigate" || jsIncludes (lowerStr s) "how to use"
        || jsIncludes (lowerStr s) "help") = true
    · rw [h1]; simp
    · rw [Bool.not_eq_true] at h1
      rw [h1]
      by_cases h2 : (jsIncludes (lowerStr s) "find" || jsIncludes (lowerStr s) "search") = true
      · rw [h2]; simp
      · rw [Bool.not_eq_true] at h2
        rw [h2]
        by_cases h3 : (jsIncludes (lowerStr s) "statistics"
            || jsIncludes (lowerStr s) "how many") = true
        · rw [h3]; simp
        · rw [Bool.not_eq_true] at h3
          rw [h3]
          by_cases h4 : (jsIncludes (lowerStr s) "how to add") = true
          · rw [h4]; simp
          · rw [Bool.not_eq_true] at h4
            rw [h4]
            simp
  refine ⟨hmain, ?_⟩
  rw [hmain]
  show respondFromTable s ≠ ""
  unfold respondFromTable
  cases hfind : fallbackTable.find? (fun e => e.1 (lowerStr s)) with
  | none => decide
  | some e =>
    have hmem := List.mem_of_find?_eq_some hfind
    simp only [fallbackTable, List.mem_cons, List.not_mem_nil, or_false] at hmem
    rcases hmem with h | h | h | h <;> rw [h] <;> decide

/-- C1 (counterexample): for the whitespace-only raw input `"   "`, the
completed `handleSendMessage` call returns at the `!inputMessage.trim()`
guard and produces zero AssistantResults, not exactly one. -/
theorem C1_counterexample :
    ¬((handleSendMessage ⟨none, "claude-3-haiku-20240307", 500⟩ "   " ⟨0, 0, 20⟩ 0
        (FetchOutcome.netError "offline")).1.length = 1) := by
  decide

/-- C1 (amended): for every raw input whose trim is non-empty, and
whenever a successful upstream answer is itself non-empty, a completed
`handleSendMessage` call produces exactly one bot entry, with a non-empty
message and a source among `claude` (the spec's `model`), `fallback`, and
`error`; no error escapes to the caller (the embedding is total).  A
whitespace-only input instead returns without producing any entry. -/
theorem C1_exactly_one_result :
    ∀ (config : ClaudeConfig) (input : String) (tracker : RateTracker) (now : Int)
      (fetch : FetchOutcome),
      (jsTrim input == "") = false →
      answerNonempty fetch = true →
      (handleSendMessage config input tracker now fetch).1.length = 1
      ∧ ∀ m ∈ (handleSendMessage config input tracker now fetch).1,
          m.message ≠ ""
          ∧ (m.source = "claude" ∨ m.source = "fallback" ∨ m.source = "error") := by
  intro config input tracker now fetch htrim hans
  rw [handleSendMessage_nonempty config input tracker now fetch htrim]
  refine ⟨rfl, ?_⟩
  intro m hm
  simp only [List.mem_singleton] at hm
  subst hm
  rcases getAIResponse_cases config input tracker now fetch with
    hfb | ⟨status, t, rest, hf, hres⟩
  · rw [hfb]
    have h := getFallbackResponse_total input
    exact ⟨h.1, Or.inr (Or.inl h.2)⟩
  · rw [hres]
    refine ⟨?_, Or.inl rfl⟩
    subst hf
    simp only [answerNonempty] at hans
    simpa using hans

/-- C1 (witness): the amended statement at a concrete non-empty input and
a concrete successful fetch. -/
theorem C1_exactly_one_result_witness :
    (handleSendMessage ⟨some "sk-ant-key", "claude-3-haiku-20240307", 500⟩ "Hello there"
        ⟨0, 0, 20⟩ 0 (FetchOutcome.resp true 200 (some ⟨["Hi! We have 12 resources."]⟩))).1.length = 1
    ∧ ∀ m ∈ (handleSendMessage ⟨some "sk-ant-key", "claude-3-haiku-20240307", 500⟩ "Hello there"
        ⟨0, 0, 20⟩ 0 (FetchOutcome.resp true 200 (some ⟨["Hi! We have 12 resources."]⟩))).1,
        m.message ≠ ""
        ∧ (m.source = "claude" ∨ m.source = "fallback" ∨ m.source = "error") :=
  C1_exactly_one_result ⟨some "sk-ant-key", "claude-3-haiku-20240307", 500⟩ "Hello there"
    ⟨0, 0, 20⟩ 0 (FetchOutcome.resp true 200 (some ⟨["Hi! We have 12 resources."]⟩))
    (by decide) (by decide)

/-- C2 (counterexample): with no credential resolved (`apiKey = none`)
the code still attempts the network call — `sendMessage` has no
credential guard — so a submit with a fresh rate window performs one
fetch attempt (here answered by HTTP 401), not zero. -/
theorem C2_counterexample :
    (⟨none, "claude-3-sonnet-20240229", 1000⟩ : ClaudeConfig).apiKey = none
    ∧ (handleSendMessage ⟨none, "claude-3-sonnet-20240229", 1000⟩ "Hello" ⟨0, 0, 20⟩ 0
        (FetchOutcome.resp false 401 none)).2.2 = true := by
  decide

/-- C2 (amended): when no credential resolves, every completed submit
with a failing fetch outcome (as an unauthenticated call is) yields
`source = fallback` — but the orchestration does not route directly to
the Fallback Responder: the upstream call is attempted exactly when the
rate limiter permits, reaching the fallback only through the failed
attempt. -/
theorem C2_no_credential_still_fetches :
    ∀ (config : ClaudeConfig) (input : String) (tracker : RateTracker) (now : Int)
      (fetch : FetchOutcome),
      config.apiKey = none →
      (jsTrim input == "") = false →
      fetchSucceeds fetch = false →
      (∀ m ∈ (handleSendMessage config input tracker now fetch).1,
        m.source = "fallback")
      ∧ (handleSendMessage config input tracker now fetch).2.2
          = (checkRateLimit tracker now).1 := by
  intro config input tracker now fetch hkey htrim hfail
  rw [handleSendMessage_nonempty config input tracker now fetch htrim]
  constructor
  · intro m hm
    simp only [List.mem_singleton] at hm
    subst hm
    rcases getAIResponse_cases config input tracker now fetch with
      hfb | ⟨status, t, rest, hf, hres⟩
    · rw [hfb]
      exact (getFallbackResponse_total input).2
    · subst hf
      simp [fetchSucceeds] at hfail
  · exact getAIResponse_attempted config input tracker now fetch

/-- C2 (witness): the amended statement at a concrete credential-less
configuration met by an HTTP 401. -/
theorem C2_no_credential_still_fetches_witness :
    (∀ m ∈ (handleSendMessage ⟨none, "claude-3-sonnet-20240229", 1000⟩ "Hello" ⟨0, 0, 20⟩ 0
        (FetchOutcome.resp false 401 none)).1, m.source = "fallback")
    ∧ (handleSendMessage ⟨none, "claude-3-sonnet-20240229", 1000⟩ "Hello" ⟨0, 0, 20⟩ 0
        (FetchOutcome.resp false 401 none)).2.2
        = (checkRateLimit ⟨0, 0, 20⟩ 0).1 :=
  C2_no_credential_still_fetches ⟨none, "claude-3-sonnet-20240229", 1000⟩ "Hello"
    ⟨0, 0, 20⟩ 0 (FetchOutcome.resp false 401 none) rfl (by decide) rfl

/-- C6: in every orchestration run the visited steps are
Sanitize, CacheCheck, then possibly RateCheck, then possibly Invoke — so
the cache is consulted exactly once, after sanitization and before any
upstream call — and a cache hit leaves the whole state (rate window
included) untouched: a request answered from the cache never increments
the RateWindow count. -/
theorem C6_cache_after_sanitize_before_upstream :
    ∀ (config : ClaudeConfig) (raw : String) (now : Int) (fetch : FetchOutcome)
      (st : OrchState),
      ((orchestrate config raw now fetch st).2.2
          = [OrchEvent.evSanitize, OrchEvent.evCacheCheck]
        ∨ (orchestrate config raw now fetch st).2.2
          = [OrchEvent.evSanitize, OrchEvent.evCacheCheck, OrchEvent.evRateCheck]
        ∨ (orchestrate config raw now fetch st).2.2
          = [OrchEvent.evSanitize, OrchEvent.evCacheCheck, OrchEvent.evRateCheck,
             OrchEvent.evInvoke])
      ∧ (getCachedResponse (sanitizeInput raw) st.cache ≠ none →
          (orchestrate config raw now fetch st).2.1 = st
          ∧ (orchestrate config raw now fetch st).2.2
              = [OrchEvent.evSanitize, OrchEvent.evCacheCheck]) := by
  intro config raw now fetch st
  simp only [orchestrate]
  cases hget : getCachedResponse (sanitizeInput raw) st.cache with
  | some answer =>
    exact ⟨Or.inl rfl, fun _ => ⟨rfl, rfl⟩⟩
  | none =>
    refine ⟨?_, fun hne => absurd rfl hne⟩
    cases hcrl : checkRateLimit st.tracker now with
    | mk allowed t1 =>
      cases allowed
      · exact Or.inr (Or.inl rfl)
      · cases hkey : config.apiKey with
        | none => exact Or.inr (Or.inl rfl)
        | some k =>
          cases fetch with
          | netError m => exact Or.inr (Or.inr rfl)
          | resp ok status body =>
            cases ok
            · exact Or.inr (Or.inr rfl)
            · cases body with
              | none => exact Or.inr (Or.inr rfl)
              | some b =>
                cases b with
                | mk content =>
                  cases content with
                  | nil => exact Or.inr (Or.inr rfl)
                  | cons t rest => exact Or.inr (Or.inr rfl)

/-- C6 (witness): a concrete run whose sanitized input is cached leaves
the cache and rate window exactly as they were and stops at the cache
check. -/
theorem C6_cache_after_sanitize_before_upstream_witness :
    (orchestrate ⟨none, "claude-3-haiku-20240307", 500⟩ "Hello" 0
        (FetchOutcome.netError "offline")
        ⟨[("hello", "cached answer")], ⟨0, 0, 20⟩⟩).2.1
      = ⟨[("hello", "cached answer")], ⟨0, 0, 20⟩⟩
    ∧ (orchestrate ⟨none, "claude-3-haiku-20240307", 500⟩ "Hello" 0
        (FetchOutcome.netError "offline")
        ⟨[("hello", "cached answer")], ⟨0, 0, 20⟩⟩).2.2
      = [OrchEvent.evSanitize, OrchEvent.evCacheCheck] :=
  (C6_cache_after_sanitize_before_upstream ⟨none, "claude-3-haiku-20240307", 500⟩ "Hello" 0
    (FetchOutcome.netError "offline") ⟨[("hello", "cached answer")], ⟨0, 0, 20⟩⟩).2
    (by decide)

end GovEx
